import Mathlib

/-!
Shallow embedding of the pview `pv2mqtt` bridge (wez/pview), covering:
`src/api_types.rs` (shade data, positions, postback records),
`src/mqtt_helper.rs` (route compilation and dispatch), and
`src/commands/serve_mqtt.rs` (the Home-Assistant registration engine,
event handlers and the discovery handler).

Machine integers are modelled as `Nat`/`Int` with explicit `% 2^w`
wrapping exactly where Rust `as` casts occur.  Fallible code returns
`Except String`.  Publish/hub side effects are modelled as explicit
action lists.
-/

set_option maxRecDepth 16384

namespace Pview

/-! ## api_types.rs -/

/-- `BatteryStatus` from api_types.rs. -/
inductive BatteryStatus
  | unavailable
  | low
  | medium
  | high
  | pluggedIn
deriving DecidableEq, Repr

/-- `ShadeBatteryKind` from api_types.rs. -/
inductive ShadeBatteryKind
  | hardWiredPowerSupply
  | batteryWand
  | rechargeableBattery
deriving DecidableEq, Repr

/-- `PositionKind` from api_types.rs. -/
inductive PositionKind
  | none
  | primaryRail
  | secondaryRail
  | vaneTilt
  | error
deriving DecidableEq, Repr

/-- `ShadeCapabilities` from api_types.rs. -/
inductive ShadeCapabilities
  | bottomUp
  | bottomUpTilt90
  | bottomUpTilt180
  | verticalTilt180
  | vertical
  | tiltOnly180
  | topDown
  | topDownBottomUp
  | dualOverlapped
  | dualOverlappedTilt90
deriving DecidableEq, Repr

/-- The `ShadeCapabilityFlags` bitflags, as a `Nat` bitmask. -/
def PRIMARY_RAIL : Nat := 1
def SECONDARY_RAIL : Nat := 2
def TILT_ON_CLOSED : Nat := 4
def TILT_ANYWHERE : Nat := 8
def TILT_180 : Nat := 16
def PRIMARY_RAIL_REVERSED : Nat := 32
def SECONDARY_RAIL_OVERLAPPED : Nat := 64

/-- `ShadeCapabilities::flags` from api_types.rs. -/
def ShadeCapabilities.flags : ShadeCapabilities → Nat
  | .bottomUp => PRIMARY_RAIL
  | .bottomUpTilt90 => PRIMARY_RAIL ||| TILT_ON_CLOSED
  | .bottomUpTilt180 => PRIMARY_RAIL ||| TILT_ANYWHERE ||| TILT_180
  | .verticalTilt180 => PRIMARY_RAIL ||| TILT_ANYWHERE ||| TILT_180
  | .vertical => PRIMARY_RAIL
  | .tiltOnly180 => TILT_ANYWHERE ||| TILT_180
  | .topDown => PRIMARY_RAIL ||| PRIMARY_RAIL_REVERSED
  | .topDownBottomUp => PRIMARY_RAIL ||| SECONDARY_RAIL
  | .dualOverlapped => PRIMARY_RAIL ||| SECONDARY_RAIL ||| SECONDARY_RAIL_OVERLAPPED
  | .dualOverlappedTilt90 =>
      PRIMARY_RAIL ||| SECONDARY_RAIL ||| SECONDARY_RAIL_OVERLAPPED ||| TILT_ON_CLOSED

/-- `bitflags::contains`: every bit of `flag` is set in `mask`. -/
def containsFlag (mask flag : Nat) : Bool := mask &&& flag == flag

/-- `ShadeFirmware` from api_types.rs (fields used by serve_mqtt). -/
structure ShadeFirmware where
  build : Int
  revision : Int
  sub_revision : Int
deriving DecidableEq, Repr

/-- `ShadePosition` from api_types.rs.  `position_1 : u16` and
`position_2 : Option<u16>` are modelled as `Nat` values (< 65536 in range). -/
structure ShadePosition where
  pos_kind_1 : PositionKind
  pos_kind_2 : Option PositionKind
  position_1 : Nat
  position_2 : Option Nat
deriving DecidableEq, Repr

/-- `ShadePosition::pos_to_percent`: `(100u32 * pos as u32 / u16::MAX as u32) as u8`.
The argument is a `u16` value; the trailing `% 256` is the `as u8` cast. -/
def ShadePosition.pos_to_percent (pos : Nat) : Nat :=
  100 * pos / 65535 % 256

/-- `ShadePosition::percent_to_pos`: `((u16::MAX as u32) * (pct as u32) / 100u32) as u16`.
The argument is a `u8` value; the trailing `% 65536` is the `as u16` cast. -/
def ShadePosition.percent_to_pos (pct : Nat) : Nat :=
  65535 * pct / 100 % 65536

/-- `ShadePosition::pos1_percent`. -/
def ShadePosition.pos1_percent (p : ShadePosition) : Nat :=
  ShadePosition.pos_to_percent p.position_1

/-- `ShadePosition::pos2_percent`. -/
def ShadePosition.pos2_percent (p : ShadePosition) : Option Nat :=
  p.position_2.map ShadePosition.pos_to_percent

/-- Rust `as u8` on an `i32` value: the low 8 bits. -/
def i32_as_u8 (x : Int) : Nat := (x % 256).toNat

/-- Rust `as u16` on an `i32` value: the low 16 bits. -/
def i32_as_u16 (x : Int) : Nat := (x % 65536).toNat

/-- `ShadeData` from api_types.rs (the fields read by serve_mqtt;
`name` holds the decoded `Base64Name`). -/
structure ShadeData where
  battery_status : BatteryStatus
  battery_strength : Int
  firmware : Option ShadeFirmware
  capabilities : ShadeCapabilities
  battery_kind : ShadeBatteryKind
  signal_strength : Option Int
  id : Int
  name : Option String
  positions : Option ShadePosition
  room_id : Option Int
deriving DecidableEq, Repr

/-- `ShadeData::name()`: the decoded name or `"unknown"`. -/
def ShadeData.nameStr (s : ShadeData) : String := s.name.getD "unknown"

/-- `ShadeData::battery_percent`: `None` when the battery status is
`Unavailable`, otherwise `(battery_strength / 2) as u8` (i32 division
truncates toward zero). -/
def ShadeData.battery_percent (s : ShadeData) : Option Nat :=
  if s.battery_status = .unavailable then none
  else some (i32_as_u8 (Int.tdiv s.battery_strength 2))

/-- `ShadeData::signal_strength_percent`:
`((level as u16) * 100 / 4) as u8` with u16 wrapping on the product. -/
def ShadeData.signal_strength_percent (s : ShadeData) : Option Nat :=
  s.signal_strength.map fun level => i32_as_u16 level * 100 % 65536 / 4 % 256

/-- `RoomData` from api_types.rs (fields used: id, decoded name). -/
structure RoomData where
  id : Int
  name : String
deriving DecidableEq, Repr

/-- `Scene` from api_types.rs (fields used: id, decoded name, room_id). -/
structure Scene where
  id : Int
  name : String
  room_id : Int
deriving DecidableEq, Repr

/-- `UserData` from api_types.rs (the fields read by serve_mqtt;
`hub_name` holds the decoded `Base64Name`). -/
structure UserData where
  hub_name : String
  ip : String
  mac_address : String
  serial_number : String
  rf_status : Int
  brand : String
deriving DecidableEq, Repr

/-- `HomeAutomationService` from api_types.rs. -/
inductive HomeAutomationService
  | primary
  | secondary
deriving DecidableEq, Repr

/-- `HomeAutomationRecordType` from api_types.rs.  The declaration order is
significant: the derived Rust `Ord` compares by it. -/
inductive HomeAutomationRecordType
  | startsOpening
  | startsClosing
  | beginsMoving
  | targetLevelChanged
  | levelChanged
  | hasOpened
  | hasFullyOpened
  | hasFullyClosed
  | hasClosed
  | stops
deriving DecidableEq, Repr, Fintype

/-- The discriminant order underlying the derived `Ord` on
`HomeAutomationRecordType` (its Rust declaration order). -/
def HomeAutomationRecordType.rank : HomeAutomationRecordType → Nat
  | .startsOpening => 0
  | .startsClosing => 1
  | .beginsMoving => 2
  | .targetLevelChanged => 3
  | .levelChanged => 4
  | .hasOpened => 5
  | .hasFullyOpened => 6
  | .hasFullyClosed => 7
  | .hasClosed => 8
  | .stops => 9

/-- The derived total order on `HomeAutomationRecordType`, as a boolean
`le`: `a.cmp(&b) != Greater`. -/
def HomeAutomationRecordType.le (a b : HomeAutomationRecordType) : Bool :=
  Nat.ble a.rank b.rank

/-- `HomeAutomationPostBackData` from api_types.rs (u8 fields as `Nat`). -/
structure HomeAutomationPostBackData where
  duration_ms : Option Int
  remaining_duration_ms : Option Int
  initial_position : Option Nat
  service : HomeAutomationService
  shade_id : Int
  target_position : Option Nat
  current_position : Option Nat
  record_type : HomeAutomationRecordType
  stopped_position : Option Nat
deriving DecidableEq, Repr

/-! ## mqtt_helper.rs -/

/-- An inbound mqtt message (`mosquitto_rs::Message`, the fields the router
reads: topic and payload bytes, as a string). -/
structure Message where
  topic : String
  payload : String
deriving DecidableEq, Repr

/-- `route_to_topic`'s character loop, with the `in_param` flag as state.
`:` starts a parameter (emitting one `+`), `/` ends it, characters inside a
parameter are skipped. -/
def rttGo : List Char → Bool → List Char
  | [], _ => []
  | c :: cs, in_param =>
    if c = ':' then '+' :: rttGo cs true
    else if c = '/' then '/' :: rttGo cs false
    else if in_param then rttGo cs in_param
    else c :: rttGo cs in_param

/-- `route_to_topic` from mqtt_helper.rs: convert a route into the
corresponding mqtt subscription topic, replacing `:foo` by `+`. -/
def route_to_topic (route : String) : String :=
  String.mk (rttGo route.data false)

/-- One segment of a registered route: a literal, or a `:name` capture. -/
inductive RouteSeg
  | lit (s : String)
  | param (name : String)
deriving DecidableEq, Repr

/-- Split on the `/` separator (the semantics of `String::split('/')` /
`String.splitOn "/"`, written structurally over the character list). -/
def splitSegsChars : List Char → List (List Char)
  | [] => [[]]
  | c :: cs =>
    if c = '/' then [] :: splitSegsChars cs
    else
      match splitSegsChars cs with
      | seg :: rest => (c :: seg) :: rest
      | [] => [[c]]

/-- The `/`-separated segments of a topic string. -/
def splitTopic (s : String) : List String :=
  (splitSegsChars s.data).map String.mk

/-- Parse one matchit template segment: a leading `:` marks a capture. -/
def parseSeg (seg : List Char) : RouteSeg :=
  match seg with
  | ':' :: rest => .param (String.mk rest)
  | _ => .lit (String.mk seg)

/-- Parse a matchit route template into segments (`:x` segments capture). -/
def parseRoute (s : String) : List RouteSeg :=
  (splitSegsChars s.data).map parseSeg

/-- Matching one registered route against the segments of a concrete topic,
returning the captured parameters (matchit `Router::at` semantics for the
disjoint routes this program registers: literal segments must be equal,
capture segments bind one topic segment, segment counts must agree). -/
def matchRoute : List RouteSeg → List String → Option (List (String × String))
  | [], [] => some []
  | .lit s :: rs, t :: ts => if s = t then matchRoute rs ts else none
  | .param n :: rs, t :: ts => (matchRoute rs ts).map ((n, t) :: ·)
  | _, _ => none

/-- The handler type stored in the router: receives the captured parameters
and the message, and returns the handler's result. -/
def Handler : Type := List (String × String) → Message → Except String Unit

/-- `MqttRouter`: the registered (route, handler) pairs. -/
structure MqttRouter where
  routes : List (List RouteSeg × Handler)

/-- `matchit::Router::at`: find the route matching the topic; an unmatched
topic is an `Err` (`MatchError::NotFound`). -/
def routerAt (routes : List (List RouteSeg × Handler)) (topic : List String) :
    Except String (Handler × List (String × String)) :=
  match routes with
  | [] => .error "matchit: not found"
  | r :: rest =>
    match matchRoute r.1 topic with
    | some ps => .ok (r.2, ps)
    | none => routerAt rest topic

/-- `MqttRouter::dispatch` from mqtt_helper.rs: look the topic up in the
router (the `?` operator propagates a failed match as an error), then call
the matched handler with the captured parameters. -/
def MqttRouter.dispatch (router : MqttRouter) (message : Message) :
    Except String Unit :=
  match routerAt router.routes (splitTopic message.topic) with
  | .error e => .error e
  | .ok (handler, params) => handler params message

/-- Whether an `Except` value is an error. -/
def isError : Except String Unit → Bool
  | .error _ => true
  | .ok _ => false

/-! ## hass_helper.rs -/

/-- The version string from version_info.rs (a compile-time constant chosen
from `PVIEW_CI_TAG` / `CARGO_PKG_VERSION`; one fixed string for the whole
process, its concrete value does not matter to any claim). -/
def pview_version : String := "pview-version"

def MODEL : String := "pv2mqtt"
def URL : String := "https://github.com/wez/pview"

/-- `Origin` from hass_helper.rs. -/
structure Origin where
  name : String
  sw_version : String
  url : String
deriving DecidableEq, Repr

/-- `Origin::default()`. -/
def Origin.default : Origin :=
  { name := MODEL, sw_version := pview_version, url := URL }

/-- `Device` from hass_helper.rs. -/
structure Device where
  name : String
  manufacturer : String
  model : String
  sw_version : Option String
  suggested_area : Option String
  via_device : Option String
  identifiers : List String
  connections : List (String × String)
deriving DecidableEq, Repr

/-- `EntityConfig` from hass_helper.rs. -/
structure EntityConfig where
  availability_topic : String
  name : Option String
  device_class : Option String
  origin : Origin
  device : Device
  unique_id : String
  entity_category : Option String
  icon : Option String
deriving DecidableEq, Repr

/-- `CoverConfig` from hass_helper.rs. -/
structure CoverConfig where
  base : EntityConfig
  state_topic : String
  position_topic : String
  set_position_topic : String
  command_topic : String
deriving DecidableEq, Repr

/-- `SceneConfig` from hass_helper.rs. -/
structure SceneConfig where
  base : EntityConfig
  command_topic : String
  payload_on : String
deriving DecidableEq, Repr

/-- `SensorConfig` from hass_helper.rs. -/
structure SensorConfig where
  base : EntityConfig
  state_topic : String
  unit_of_measurement : Option String
deriving DecidableEq, Repr

/-- `ButtonConfig` from hass_helper.rs. -/
structure ButtonConfig where
  base : EntityConfig
  command_topic : String
  payload_press : Option String
deriving DecidableEq, Repr

/-- `SelectConfig`: its defining module is not included under src/, but its
exact fields are determined by the construction site in serve_mqtt.rs
(lines 624-645): a base `EntityConfig`, a command topic, a state topic and
the list of selectable options. -/
structure SelectConfig where
  base : EntityConfig
  command_topic : String
  state_topic : String
  options : List String
deriving DecidableEq, Repr

/-! ## serve_mqtt.rs: registration engine -/

def SECONDARY_SUFFIX : String := "_middle"
def WEZ : String := "Wez Furlong"
def HUNTER_DOUGLAS : String := "Hunter Douglas"
def BATTERY_LABEL : String := "Battery"
def RECHARGEABLE_LABEL : String := "Rechargeable Battery"
def HARD_WIRED_LABEL : String := "Hard Wired"

/-- A config payload handed to `serde_json::to_string`.  Serialization is
deterministic and injective on these structures, so payloads are modelled
by the structures themselves (plain string payloads stay strings). -/
inductive Payload
  | str (s : String)
  | cover (c : CoverConfig)
  | button (c : ButtonConfig)
  | sensor (c : SensorConfig)
  | select (c : SelectConfig)
  | scene (c : SceneConfig)
deriving DecidableEq, Repr

/-- `RegEntry` from serve_mqtt.rs; delays carry milliseconds. -/
inductive RegEntry
  | delay (ms : Nat)
  | msg (topic : String) (payload : Payload)
deriving DecidableEq, Repr

/-- Whether a `RegEntry` is an actual publish (not a delay). -/
def RegEntry.isMsg : RegEntry → Bool
  | .delay _ => false
  | .msg _ _ => true

/-- The topic of a publish entry. -/
def RegEntry.topic? : RegEntry → Option String
  | .delay _ => none
  | .msg t _ => some t

/-- Number of publishes in a queue. -/
def countMsgs (l : List RegEntry) : Nat :=
  (l.filter RegEntry.isMsg).length

/-- `HassRegistration` from serve_mqtt.rs: three ordered queues. -/
structure HassRegistration where
  deletes : List RegEntry
  configs : List RegEntry
  updates : List RegEntry
deriving DecidableEq, Repr

/-- `HassRegistration::new`. -/
def HassRegistration.new : HassRegistration :=
  { deletes := [], configs := [], updates := [] }

/-- `HassRegistration::delete`: the very first delete in a pass is preceded
by a 4 second delay. -/
def HassRegistration.delete (reg : HassRegistration) (topic : String) :
    HassRegistration :=
  let reg :=
    if reg.deletes.isEmpty then
      { reg with deletes := reg.deletes ++ [RegEntry.delay 4000] }
    else reg
  { reg with deletes := reg.deletes ++ [RegEntry.msg topic (.str "")] }

/-- `HassRegistration::config`. -/
def HassRegistration.config (reg : HassRegistration) (topic : String)
    (payload : Payload) : HassRegistration :=
  { reg with configs := reg.configs ++ [RegEntry.msg topic payload] }

/-- `HassRegistration::update`. -/
def HassRegistration.update (reg : HassRegistration) (topic : String)
    (payload : Payload) : HassRegistration :=
  { reg with updates := reg.updates ++ [RegEntry.msg topic payload] }

/-- The three applied phases of `HassRegistration::apply_updates`, in order
deletes, configs, updates. -/
structure AppliedPhases where
  deletes : List RegEntry
  configs : List RegEntry
  updates : List RegEntry
deriving DecidableEq, Repr

/-- `HassRegistration::apply_updates` from serve_mqtt.rs: on the first run,
if there are both configs and updates, prepend to the update phase a delay
of `configs.len() * 30` milliseconds; on later runs clear the delete queue.
Then the phases run in order deletes, configs, updates, and `first_run` is
stored `false`.  Returns the applied phases and the new `first_run` flag. -/
def apply_updates (first_run : Bool) (reg : HassRegistration) :
    AppliedPhases × Bool :=
  if first_run then
    let updates :=
      if !reg.configs.isEmpty && !reg.updates.isEmpty then
        RegEntry.delay (reg.configs.length * 30) :: reg.updates
      else reg.updates
    ({ deletes := reg.deletes, configs := reg.configs, updates := updates }, false)
  else
    ({ deletes := [], configs := reg.configs, updates := reg.updates }, false)

/-- The flat publish sequence of the applied phases. -/
def AppliedPhases.flat (p : AppliedPhases) : List RegEntry :=
  p.deletes ++ p.configs ++ p.updates

/-- `DiagnosticEntity` from serve_mqtt.rs. -/
structure DiagnosticEntity where
  name : String
  unique_id : String
  value : String
deriving DecidableEq, Repr

/-- `register_diagnostic_entity` from serve_mqtt.rs. -/
def register_diagnostic_entity (diagnostic : DiagnosticEntity)
    (user_data : UserData) ( discovery_prefix : String)
    (reg : HassRegistration) : HassRegistration :=
  let serial := user_data.serial_number
  let unique_id := diagnostic.unique_id
  let config : SensorConfig :=
    { base :=
      { name := some diagnostic.name
        availability_topic := MODEL ++ "/sensor/" ++ unique_id ++ "/availability"
        device :=
          { identifiers := [ MODEL ++ "-" ++ serial, user_data.serial_number,
              user_data.mac_address]
            connections := [("mac", user_data.mac_address)]
            name := user_data.brand ++ " PowerView Hub: " ++ user_data.hub_name
            manufacturer := WEZ
            model := MODEL
            sw_version := some pview_version
            suggested_area := none
            via_device := none }
        device_class := none
        origin := Origin.default
        unique_id := unique_id
        entity_category := some "diagnostic"
        icon := none }
      state_topic := MODEL ++ "/sensor/" ++ unique_id ++ "/state"
      unit_of_measurement := none }
  let reg := reg.config ( discovery_prefix ++ "/sensor/" ++ unique_id ++ "/config")
    (.sensor config)
  let reg := reg.update config.base.availability_topic (.str "online")
  reg.update (MODEL ++ "/sensor/" ++ unique_id ++ "/state") (.str diagnostic.value)

/-- `register_hub` from serve_mqtt.rs: the three diagnostic entities.
`responding` is the `state.responding` flag read for the Status value. -/
def register_hub (user_data : UserData) (responding : Bool)
    ( discovery_prefix : String) (reg : HassRegistration) : HassRegistration :=
  let serial := user_data.serial_number
  let reg := register_diagnostic_entity
    { name := "IP Address", unique_id := serial ++ "-hub-ip", value := user_data.ip }
    user_data discovery_prefix reg
  let reg := register_diagnostic_entity
    { name := "Status", unique_id := serial ++ "-responding",
      value := if responding then "OK" else "UNRESPONSIVE" }
    user_data discovery_prefix reg
  register_diagnostic_entity
    { name := "rfStatus", unique_id := serial ++ "-rfStatus",
      value := toString user_data.rf_status }
    user_data discovery_prefix reg

/-- The `room_by_id` map built by collecting `(room.id, room.name)` into a
`HashMap` (for duplicate ids the last insertion wins), then `get`. -/
def roomById (rooms : List RoomData) (rid : Int) : Option String :=
  (rooms.reverse.find? fun room => room.id == rid).map (·.name)

/-- `Pv2MqttState::battery_availability_topic`. -/
def battery_availability_topic (serial : String) (shade : ShadeData) : String :=
  MODEL ++ "/sensor/" ++ serial ++ "/" ++ toString shade.id ++ "/battery/availability"

/-- `Pv2MqttState::battery_state_topic`. -/
def battery_state_topic (serial : String) (shade : ShadeData) : String :=
  MODEL ++ "/sensor/" ++ serial ++ "-" ++ toString shade.id ++ "-battery/state"

/-- `Pv2MqttState::battery_kind_state_topic`. -/
def battery_kind_state_topic (serial : String) (shade : ShadeData) : String :=
  MODEL ++ "/select/" ++ serial ++ "/" ++ toString shade.id ++ "/psu/state"

/-- `battery_kind_to_state` from serve_mqtt.rs. -/
def battery_kind_to_state : ShadeBatteryKind → String
  | .hardWiredPowerSupply => HARD_WIRED_LABEL
  | .batteryWand => BATTERY_LABEL
  | .rechargeableBattery => RECHARGEABLE_LABEL

/-- The cover registration emitted for one `(shade_id, shade_name, pos)`
entry of the per-shade `shades` vector in `register_shades` (serve_mqtt.rs
lines 330-380): delete the legacy config, publish the cover config, publish
availability online, and publish position and state only when the position
is known. -/
def cover_entry (serial discovery_prefix : String) (device : Device)
    (entry : String × Option String × Option Nat) (reg : HassRegistration) :
    HassRegistration :=
  let (shade_id, shade_name, pos) := entry
  let unique_id := serial ++ "-" ++ shade_id
  let config : CoverConfig :=
    { base :=
      { unique_id := unique_id
        name := shade_name
        availability_topic :=
          MODEL ++ "/shade/" ++ serial ++ "/" ++ shade_id ++ "/availability"
        device_class := some "shade"
        origin := Origin.default
        device := device
        entity_category := none
        icon := none }
      command_topic := MODEL ++ "/shade/" ++ serial ++ "/" ++ shade_id ++ "/command"
      position_topic := MODEL ++ "/shade/" ++ serial ++ "/" ++ shade_id ++ "/position"
      set_position_topic :=
        MODEL ++ "/shade/" ++ serial ++ "/" ++ shade_id ++ "/set_position"
      state_topic := MODEL ++ "/shade/" ++ serial ++ "/" ++ shade_id ++ "/state" }
  let reg := reg.delete ( discovery_prefix ++ "/cover/" ++ shade_id ++ "/config")
  let reg := reg.config
    ( discovery_prefix ++ "/cover/" ++ serial ++ "-" ++ shade_id ++ "/config")
    (.cover config)
  let reg := reg.update config.base.availability_topic (.str "online")
  match pos with
  | some pos =>
    let reg := reg.update
      (MODEL ++ "/shade/" ++ serial ++ "/" ++ shade_id ++ "/position")
      (.str (toString pos))
    let st := if pos = 0 then "closed" else "open"
    reg.update (MODEL ++ "/shade/" ++ serial ++ "/" ++ shade_id ++ "/state") (.str st)
  | none => reg

/-- One of the five button blocks of `register_shades` (jog, calibrate,
heart, rebattery, refresh): `part` is the availability path component and
unique-id suffix, `nm` the display name, `payload` the press payload,
`icon` the optional icon. -/
def button_block (serial discovery_prefix : String) (device : Device)
    (device_id : String) (shade : ShadeData) (part nm payload : String)
    (icon : Option String) (reg : HassRegistration) : HassRegistration :=
  let button : ButtonConfig :=
    { base :=
      { unique_id := device_id ++ "-" ++ part
        name := some nm
        availability_topic := MODEL ++ "/shade/" ++ serial ++ "/" ++
          toString shade.id ++ "/" ++ part ++ "/availability"
        device_class := none
        origin := Origin.default
        device := device
        entity_category := some "diagnostic"
        icon := icon }
      command_topic :=
        MODEL ++ "/shade/" ++ serial ++ "/" ++ toString shade.id ++ "/command"
      payload_press := some payload }
  let reg := reg.delete
    ( discovery_prefix ++ "/button/" ++ device_id ++ "-" ++ part ++ "/config")
  let reg := reg.config
    ( discovery_prefix ++ "/button/" ++ device_id ++ "-" ++ part ++ "/config")
    (.button button)
  reg.update button.base.availability_topic (.str "online")

/-- The battery sensor block of `register_shades` (serve_mqtt.rs lines
479-513): when the battery percentage is unknown only an offline
availability is published, otherwise online plus the level. -/
def battery_block (serial discovery_prefix : String) (device : Device)
    (device_id : String) (shade : ShadeData) (reg : HassRegistration) :
    HassRegistration :=
  let battery : SensorConfig :=
    { base :=
      { unique_id := device_id ++ "-battery"
        name := some "Battery"
        availability_topic := battery_availability_topic serial shade
        device_class := some "battery"
        origin := Origin.default
        device := device
        entity_category := some "diagnostic"
        icon := none }
      state_topic := battery_state_topic serial shade
      unit_of_measurement := some "%" }
  let reg := reg.delete
    ( discovery_prefix ++ "/sensor/" ++ device_id ++ "-battery/config")
  let reg := reg.config
    ( discovery_prefix ++ "/sensor/" ++ device_id ++ "-battery/config")
    (.sensor battery)
  match shade.battery_percent with
  | some pct =>
    let reg := reg.update battery.base.availability_topic (.str "online")
    reg.update battery.state_topic (.str (toString pct))
  | none => reg.update battery.base.availability_topic (.str "offline")

/-- The signal-strength sensor block of `register_shades` (serve_mqtt.rs
lines 549-586). -/
def signal_block (serial discovery_prefix : String) (device : Device)
    (device_id : String) (shade : ShadeData) (reg : HassRegistration) :
    HassRegistration :=
  let signal : SensorConfig :=
    { base :=
      { unique_id := device_id ++ "-signal"
        name := some "Signal Strength"
        availability_topic := MODEL ++ "/sensor/" ++ serial ++ "/" ++
          toString shade.id ++ "/signal/availability"
        device_class := none
        origin := Origin.default
        device := device
        entity_category := some "diagnostic"
        icon := some "mdi:signal" }
      state_topic := MODEL ++ "/sensor/" ++ device_id ++ "-signal/state"
      unit_of_measurement := some "%" }
  let reg := reg.delete
    ( discovery_prefix ++ "/sensor/" ++ device_id ++ "-signal/config")
  let reg := reg.config
    ( discovery_prefix ++ "/sensor/" ++ device_id ++ "-signal/config")
    (.sensor signal)
  match shade.signal_strength_percent with
  | some pct =>
    let reg := reg.update signal.base.availability_topic (.str "online")
    reg.update signal.state_topic (.str (toString pct))
  | none => reg.update signal.base.availability_topic (.str "offline")

/-- The power-source select block of `register_shades` (serve_mqtt.rs lines
623-661). -/
def psu_block (serial discovery_prefix : String) (device : Device)
    (device_id : String) (shade : ShadeData) (reg : HassRegistration) :
    HassRegistration :=
  let power_source : SelectConfig :=
    { base :=
      { unique_id := device_id ++ "-psu"
        name := some "Power Source"
        availability_topic := MODEL ++ "/shade/" ++ serial ++ "/" ++
          toString shade.id ++ "/psu/availability"
        device_class := none
        origin := Origin.default
        device := device
        entity_category := some "diagnostic"
        icon := some "mdi:power-plug-outline" }
      command_topic :=
        MODEL ++ "/shade/" ++ serial ++ "/" ++ toString shade.id ++ "/command"
      state_topic := battery_kind_state_topic serial shade
      options := [HARD_WIRED_LABEL, BATTERY_LABEL, RECHARGEABLE_LABEL] }
  let reg := reg.delete
    ( discovery_prefix ++ "/select/" ++ device_id ++ "-psu/config")
  let reg := reg.config
    ( discovery_prefix ++ "/select/" ++ device_id ++ "-psu/config")
    (.select power_source)
  let reg := reg.update power_source.base.availability_topic (.str "online")
  reg.update power_source.state_topic (.str (battery_kind_to_state shade.battery_kind))

/-- The body of the `for shade in &shades` loop of `register_shades`: a
shade with no `positions` is skipped entirely; otherwise its cover entries
(secondary rail decided by the capability flags), the five buttons, the
battery and signal sensors and the power-source select are registered. -/
def register_one_shade (serial discovery_prefix : String)
    (rooms : List RoomData) (reg : HassRegistration) (shade : ShadeData) :
    HassRegistration :=
  match shade.positions with
  | none => reg
  | some position =>
    let shades : List (String × Option String × Option Nat) :=
      [(toString shade.id, none, some position.pos1_percent)] ++
        (if containsFlag shade.capabilities.flags SECONDARY_RAIL then
          [(toString shade.id ++ SECONDARY_SUFFIX, some "Middle Rail",
            position.pos2_percent)]
        else [])
    let area := shade.room_id.bind fun room_id => roomById rooms room_id
    let device_id := serial ++ "-" ++ toString shade.id
    let device : Device :=
      { suggested_area := area
        identifiers := [device_id]
        via_device := some (MODEL ++ "-" ++ serial)
        name := shade.nameStr
        manufacturer := HUNTER_DOUGLAS
        model := MODEL
        connections := []
        sw_version := shade.firmware.map fun vers =>
          toString vers.revision ++ "." ++ toString vers.sub_revision ++ "." ++
            toString vers.build }
    let reg := shades.foldl
      (fun reg entry => cover_entry serial discovery_prefix device entry reg) reg
    let reg := button_block serial discovery_prefix device device_id shade
      "jog" "Jog" "JOG" none reg
    let reg := button_block serial discovery_prefix device device_id shade
      "calibrate" "Calibrate" "CALIBRATE"
      (some "mdi:swap-vertical-circle-outline") reg
    let reg := button_block serial discovery_prefix device device_id shade
      "heart" "Move to Favorite Position" "HEART" (some "mdi:heart") reg
    let reg := battery_block serial discovery_prefix device device_id shade reg
    let reg := button_block serial discovery_prefix device device_id shade
      "rebattery" "Refresh Battery Status" "UPDATE_BATTERY" none reg
    let reg := signal_block serial discovery_prefix device device_id shade reg
    let reg := button_block serial discovery_prefix device device_id shade
      "refresh" "Refresh Position" "REFRESH_POS" none reg
    psu_block serial discovery_prefix device device_id shade reg

/-- `register_shades` from serve_mqtt.rs over an already-enumerated
inventory. -/
def register_shades (serial discovery_prefix : String)
    (shades : List ShadeData) (rooms : List RoomData)
    (reg : HassRegistration) : HassRegistration :=
  shades.foldl (register_one_shade serial discovery_prefix rooms) reg

/-- `register_scenes` from serve_mqtt.rs. -/
def register_scenes (serial discovery_prefix : String) (scenes : List Scene)
    (rooms : List RoomData) (reg : HassRegistration) : HassRegistration :=
  scenes.foldl (fun reg scene =>
    let scene_id := scene.id
    let scene_name := scene.name
    let suggested_area := roomById rooms scene.room_id
    let unique_id := serial ++ "-scene-" ++ toString scene_id
    let config : SceneConfig :=
      { base :=
        { device :=
          { suggested_area := suggested_area
            identifiers := [unique_id]
            via_device := some (MODEL ++ "-" ++ serial)
            name := scene_name
            manufacturer := HUNTER_DOUGLAS
            model := MODEL
            connections := []
            sw_version := none }
          availability_topic :=
            MODEL ++ "/scene/" ++ serial ++ "/" ++ toString scene_id ++ "/availability"
          device_class := none
          name := none
          origin := Origin.default
          unique_id := unique_id
          entity_category := none
          icon := none }
        command_topic :=
          MODEL ++ "/scene/" ++ serial ++ "/" ++ toString scene_id ++ "/set"
        payload_on := "ON" }
    let reg := reg.delete ( discovery_prefix ++ "/scene/" ++ unique_id ++ "/config")
    let reg := reg.config ( discovery_prefix ++ "/scene/" ++ unique_id ++ "/config")
      (.scene config)
    reg.update config.base.availability_topic (.str "online")) reg

/-- The inventory a reconciliation pass enumerates from the hub. -/
structure Inventory where
  user_data : UserData
  shades : List ShadeData
  scenes : List Scene
  rooms : List RoomData
deriving Repr

/-- `register_with_hass` from serve_mqtt.rs, up to the final
`apply_updates`: build one `HassRegistration` from hub diagnostics, shades
and scenes.  `serial` is `state.serial` and `responding` the
`state.responding` flag. -/
def register_with_hass (inv : Inventory) (responding : Bool)
    ( discovery_prefix serial : String) : HassRegistration :=
  let reg := HassRegistration.new
  let reg := register_hub inv.user_data responding discovery_prefix reg
  let reg := register_shades serial discovery_prefix inv.shades inv.rooms reg
  register_scenes serial discovery_prefix inv.scenes inv.rooms reg

/-! ## serve_mqtt.rs: event loop pieces -/

/-- The event-batch reordering of `ServeMqttCommand::serve`:
`data.sort_by(|a, b| a.record_type.cmp(&b.record_type))`.  Rust
`Vec::sort_by` is a stable sort under the comparator, modelled by the
stable `List.mergeSort` under the comparator's `le`. -/
def sortRecords (data : List HomeAutomationPostBackData) :
    List HomeAutomationPostBackData :=
  data.mergeSort fun a b => a.record_type.le b.record_type

/-- `ShadeUpdateMotion` from api_types.rs. -/
inductive ShadeUpdateMotion
  | down
  | heart
  | jog
  | leftTilt
  | rightTilt
  | stop
  | up
  | calibrate
deriving DecidableEq, Repr

/-- An observable side effect of an event-loop handler: a `HubClient`
REST call, an mqtt publish, or one of the two whole-pass effects of the
discovery handler. -/
inductive Action
  | hubActivateScene (scene_id : Int)
  | hubShadeById (shade_id : Int)
  | hubChangeShadePosition (shade_id : Int) (positions : ShadePosition)
  | hubMoveShade (shade_id : Int) (motion : ShadeUpdateMotion)
  | hubShadeUpdateBatteryLevel (shade_id : Int)
  | hubShadeRefreshPosition (shade_id : Int)
  | hubChangeBatteryKind (shade_id : Int) (kind : ShadeBatteryKind)
  | publish (topic : String) (payload : String)
  | updateHomeautomationHook
  | reregisterWithHass
deriving DecidableEq, Repr

/-- The hub REST interface as an oracle: results of the `HubClient` calls
the handlers make (hub.rs). -/
structure HubModel where
  activate_scene : Int → Except String Unit
  shade_by_id : Int → Except String ShadeData
  change_shade_position : Int → ShadePosition → Except String Unit
  move_shade : Int → ShadeUpdateMotion → Except String Unit
  shade_update_battery_level : Int → Except String ShadeData
  shade_refresh_position : Int → Except String ShadeData
  change_battery_kind : Int → ShadeBatteryKind → Except String ShadeData

/-- `ShadeIdAddr::from_str`: an optional `_middle` suffix selects the
secondary rail; the rest parses as an i32 id. -/
def parseShadeIdAddr (s : String) : Except String (Int × Bool) :=
  let (t, is_secondary) :=
    if s.endsWith SECONDARY_SUFFIX then
      (s.dropRight SECONDARY_SUFFIX.length, true)
    else (s, false)
  match t.toInt? with
  | some shade_id => .ok (shade_id, is_secondary)
  | none => .error ("invalid digit found in string: " ++ t)

/-- `mqtt_scene_activate` from serve_mqtt.rs: a message for a different
hub serial is ignored with `Ok(())` and no effect; otherwise the scene is
activated on the hub. -/
def mqtt_scene_activate (hub : HubModel) (state_serial serial : String)
    (scene_id : Int) : Except String Unit × List Action :=
  if serial ≠ state_serial then (.ok (), [])
  else
    match hub.activate_scene scene_id with
    | .ok _ => (.ok (), [.hubActivateScene scene_id])
    | .error e => (.error e, [.hubActivateScene scene_id])

/-- `mqtt_shade_set_position` from serve_mqtt.rs. -/
def mqtt_shade_set_position (hub : HubModel) (state_serial serial : String)
    (shade_id : Int) (is_secondary : Bool) (position : Nat) :
    Except String Unit × List Action :=
  if serial ≠ state_serial then (.ok (), [])
  else
    match hub.shade_by_id shade_id with
    | .error e => (.error e, [.hubShadeById shade_id])
    | .ok shade =>
      match shade.positions with
      | none => (.error ("shade " ++ toString shade_id ++ " has no existing position"),
          [.hubShadeById shade_id])
      | some shade_pos =>
        let absolute := ShadePosition.percent_to_pos position
        let shade_pos :=
          if is_secondary then { shade_pos with position_2 := some absolute }
          else { shade_pos with position_1 := absolute }
        match hub.change_shade_position shade_id shade_pos with
        | .ok _ => (.ok (),
            [.hubShadeById shade_id, .hubChangeShadePosition shade_id shade_pos])
        | .error e => (.error e,
            [.hubShadeById shade_id, .hubChangeShadePosition shade_id shade_pos])

/-- `advise_hass_of_battery_level` from serve_mqtt.rs, as its publishes. -/
def advise_hass_of_battery_level (serial : String) (shade : ShadeData) :
    List Action :=
  match shade.battery_percent with
  | some pct =>
    [.publish (battery_state_topic serial shade) (toString pct),
     .publish (battery_availability_topic serial shade) "online"]
  | none => [.publish (battery_availability_topic serial shade) "offline"]

/-- `advise_hass_of_battery_kind` from serve_mqtt.rs, as its publish. -/
def advise_hass_of_battery_kind (serial : String) (shade : ShadeData) :
    List Action :=
  [.publish (battery_kind_state_topic serial shade)
    (battery_kind_to_state shade.battery_kind)]

/-- A hub motion call and its propagated result, with the actions so far. -/
def moveShadeStep (hub : HubModel) (pre : List Action) (shade_id : Int)
    (motion : ShadeUpdateMotion) : Except String Unit × List Action :=
  match hub.move_shade shade_id motion with
  | .ok _ => (.ok (), pre ++ [.hubMoveShade shade_id motion])
  | .error e => (.error e, pre ++ [.hubMoveShade shade_id motion])

/-- A change-battery-kind call followed by the battery-kind advisory. -/
def changeBatteryKindStep (hub : HubModel) (pre : List Action)
    (state_serial : String) (shade_id : Int) (kind : ShadeBatteryKind) :
    Except String Unit × List Action :=
  match hub.change_battery_kind shade_id kind with
  | .ok shade => (.ok (), pre ++ [.hubChangeBatteryKind shade_id kind] ++
      advise_hass_of_battery_kind state_serial shade)
  | .error e => (.error e, pre ++ [.hubChangeBatteryKind shade_id kind])

/-- `mqtt_shade_command` from serve_mqtt.rs: serial guard, shade lookup,
then the command-token match. -/
def mqtt_shade_command (hub : HubModel) (state_serial serial : String)
    (shade_id : Int) (command : String) : Except String Unit × List Action :=
  if serial ≠ state_serial then (.ok (), [])
  else
    match hub.shade_by_id shade_id with
    | .error e => (.error e, [.hubShadeById shade_id])
    | .ok _shade =>
      let pre : List Action := [.hubShadeById shade_id]
      if command = "OPEN" then moveShadeStep hub pre shade_id .up
      else if command = "CLOSE" then moveShadeStep hub pre shade_id .down
      else if command = "STOP" then moveShadeStep hub pre shade_id .stop
      else if command = "JOG" then moveShadeStep hub pre shade_id .jog
      else if command = "CALIBRATE" then moveShadeStep hub pre shade_id .calibrate
      else if command = "HEART" then moveShadeStep hub pre shade_id .heart
      else if command = "UPDATE_BATTERY" then
        match hub.shade_update_battery_level shade_id with
        | .ok shade => (.ok (), pre ++ [.hubShadeUpdateBatteryLevel shade_id] ++
            advise_hass_of_battery_level state_serial shade)
        | .error e => (.error e, pre ++ [.hubShadeUpdateBatteryLevel shade_id])
      else if command = "REFRESH_POS" then
        match hub.shade_refresh_position shade_id with
        | .ok _ => (.ok (), pre ++ [.hubShadeRefreshPosition shade_id])
        | .error e => (.error e, pre ++ [.hubShadeRefreshPosition shade_id])
      else if command = BATTERY_LABEL then
        changeBatteryKindStep hub pre state_serial shade_id .batteryWand
      else if command = RECHARGEABLE_LABEL then
        changeBatteryKindStep hub pre state_serial shade_id .rechargeableBattery
      else if command = HARD_WIRED_LABEL then
        changeBatteryKindStep hub pre state_serial shade_id .hardWiredPowerSupply
      else (.ok (), pre)

/-- `advise_hass_of_unresponsive` from serve_mqtt.rs: a single publish of
`UNRESPONSIVE` to `pv2mqtt/shade/{serial}-responding/state`. -/
def advise_hass_of_unresponsive (serial : String) : Action :=
  .publish (MODEL ++ "/shade/" ++ serial ++ "-responding/state") "UNRESPONSIVE"

/-- `ServeMqttCommand::handle_discovery` from serve_mqtt.rs: result is the
new `(responding, hub user data)` state and the actions performed.  A hub
with no user data marks the state unresponsive and publishes the
unresponsive advisory; a matching, changed, reachable hub swaps the state,
re-points the home-automation hook and reruns registration. -/
def handle_discovery (state_serial : String) (responding : Bool)
    (hub_user_data : UserData) (new_user_data : Option UserData) :
    (Bool × UserData) × List Action :=
  match new_user_data with
  | some user_data =>
    if user_data.serial_number ≠ state_serial then
      ((responding, hub_user_data), [])
    else
      let changed := !responding || user_data.ip != hub_user_data.ip
        || user_data.hub_name != hub_user_data.hub_name
      if !changed then ((responding, hub_user_data), [])
      else ((true, user_data), [.updateHomeautomationHook, .reregisterWithHass])
  | none => ((false, hub_user_data), [advise_hass_of_unresponsive state_serial])

/-! ## Derived views and concrete fixtures -/

/-- The `(config topic, sensor state topic)` pairs of the sensor configs in
a queue. -/
def sensorStateTopics (l : List RegEntry) : List (String × String) :=
  l.filterMap fun e =>
    match e with
    | .msg t (.sensor c) => some (t, c.state_topic)
    | _ => none

/-- Record types that announce the start of a motion. -/
def isStartRecord : HomeAutomationRecordType → Bool
  | .startsOpening | .startsClosing | .beginsMoving => true
  | _ => false

/-- Record types that announce a finished motion. -/
def isFinalRecord : HomeAutomationRecordType → Bool
  | .hasOpened | .hasFullyOpened | .hasFullyClosed | .hasClosed | .stops => true
  | _ => false

/-- A concrete hub `UserData` fixture. -/
def udFix : UserData :=
  { hub_name := "Hub", ip := "192.168.1.50", mac_address := "00:11:22:33:44:55",
    serial_number := "7001", rf_status := 0, brand := "Hunter Douglas" }

/-- A concrete primary-rail-only position. -/
def posFix : ShadePosition :=
  { pos_kind_1 := .primaryRail, pos_kind_2 := none, position_1 := 65535,
    position_2 := none }

/-- A concrete bottom-up shade. -/
def shadeFix1 : ShadeData :=
  { battery_status := .high, battery_strength := 180, firmware := none,
    capabilities := .bottomUp, battery_kind := .batteryWand,
    signal_strength := none, id := 1, name := some "Left Shade",
    positions := some posFix, room_id := none }

/-- A second concrete bottom-up shade. -/
def shadeFix2 : ShadeData :=
  { shadeFix1 with id := 2, name := some "Right Shade" }

/-- A concrete scene. -/
def sceneFix : Scene := { id := 10, name := "Evening", room_id := 3 }

/-- The 2-shade, 1-scene inventory of the first-run scenario. -/
def invFix : Inventory :=
  { user_data := udFix, shades := [shadeFix1, shadeFix2], scenes := [sceneFix],
    rooms := [] }

/-- The registration batch one pass builds from `invFix`. -/
def regFix : HassRegistration :=
  register_with_hass invFix true "homeassistant" "7001"

/-- A closed primary position with no secondary position. -/
def posFixMid : ShadePosition :=
  { pos_kind_1 := .primaryRail, pos_kind_2 := none, position_1 := 0,
    position_2 := none }

/-- A top-down-bottom-up shade whose secondary position is absent even
though the SECONDARY_RAIL capability says the rail exists. -/
def shadeFixMid : ShadeData :=
  { battery_status := .high, battery_strength := 180, firmware := none,
    capabilities := .topDownBottomUp, battery_kind := .batteryWand,
    signal_strength := some 4, id := 7, name := some "TDBU",
    positions := some posFixMid, room_id := none }

/-- The registration built for just `shadeFixMid`. -/
def regMid : HassRegistration :=
  register_shades "7001" "homeassistant" [shadeFixMid] [] HassRegistration.new

/-- A shade with unavailable battery and no signal strength. -/
def shadeNoBatt : ShadeData :=
  { battery_status := .unavailable, battery_strength := 0, firmware := none,
    capabilities := .bottomUp, battery_kind := .batteryWand,
    signal_strength := none, id := 9, name := some "Dead",
    positions := some posFix, room_id := none }

/-- A shade with no position data at all. -/
def shadeNoPos : ShadeData :=
  { shadeNoBatt with id := 11, positions := none }

/-- A concrete `Device` fixture. -/
def devW : Device :=
  { name := "Dead", manufacturer := HUNTER_DOUGLAS, model := MODEL,
    sw_version := none, suggested_area := none,
    via_device := some (MODEL ++ "-7001"), identifiers := ["7001-9"],
    connections := [] }

/-- A handler that accepts everything (stands in for the bound closures;
the unmatched-topic behavior does not depend on them). -/
def okHandler : Handler := fun _ _ => .ok ()

/-- The four routes `ServeMqttCommand::run` registers. -/
def routerFix : MqttRouter :=
  { routes :=
    [ (parseRoute ("homeassistant" ++ "/status"), okHandler),
      (parseRoute (MODEL ++ "/scene/:serial/:scene_id/set"), okHandler),
      (parseRoute (MODEL ++ "/shade/:serial/:shade_id/set_position"), okHandler),
      (parseRoute (MODEL ++ "/shade/:serial/:shade_id/command"), okHandler) ] }

/-- A concrete hub oracle. -/
def hubW : HubModel :=
  { activate_scene := fun _ => .ok ()
    shade_by_id := fun _ => .ok shadeFix1
    change_shade_position := fun _ _ => .ok ()
    move_shade := fun _ _ => .ok ()
    shade_update_battery_level := fun _ => .ok shadeFix1
    shade_refresh_position := fun _ => .ok shadeFix1
    change_battery_kind := fun _ _ => .ok shadeFix1 }

/-- A postback record fixture with a given record type. -/
def recOf (t : HomeAutomationRecordType) : HomeAutomationPostBackData :=
  { duration_ms := none, remaining_duration_ms := none, initial_position := none,
    service := .primary, shade_id := 7, target_position := none,
    current_position := none, record_type := t, stopped_position := some 0 }

/-- Segment predicates for route templates: a literal segment has no colon
and no slash. -/
def litSeg (s : List Char) : Prop := ':' ∉ s ∧ '/' ∉ s

/-- A parameter segment starts with the colon marker and the rest of the
segment is marker-free. -/
def paramSeg (s : List Char) : Prop :=
  s.head? = some ':' ∧ ':' ∉ s.tail ∧ '/' ∉ s.tail

/-- A well-formed route segment. -/
def segOk (s : List Char) : Prop := litSeg s ∨ paramSeg s

/-- The expected subscription-filter segment: a parameter segment becomes
the single wildcard token `+`, a literal stays as it is. -/
def segTopic (s : List Char) : List Char :=
  if s.head? = some ':' then ['+'] else s

/-- Join segments with the `/` separator. -/
def joinSegs : List (List Char) → List Char
  | [] => []
  | [s] => s
  | s :: rest => s ++ '/' :: joinSegs rest

/-- The segments of the C8 witness route `pv2mqtt/:a/:b/cmd`. -/
def segsW : List (List Char) :=
  ["pv2mqtt".data, ":a".data, ":b".data, "cmd".data]

instance (s : List Char) : Decidable (litSeg s) := by
  unfold litSeg; infer_instance

instance (s : List Char) : Decidable (paramSeg s) := by
  unfold paramSeg; infer_instance

instance (s : List Char) : Decidable (segOk s) := by
  unfold segOk; infer_instance

/-! ## Queue bookkeeping lemmas -/

@[simp] theorem updates_delete (reg : HassRegistration) (t : String) :
    (reg.delete t).updates = reg.updates := by
  unfold HassRegistration.delete
  split <;> rfl

@[simp] theorem configs_delete (reg : HassRegistration) (t : String) :
    (reg.delete t).configs = reg.configs := by
  unfold HassRegistration.delete
  split <;> rfl

@[simp] theorem updates_config (reg : HassRegistration) (t : String) (p : Payload) :
    (reg.config t p).updates = reg.updates := rfl

@[simp] theorem configs_config (reg : HassRegistration) (t : String) (p : Payload) :
    (reg.config t p).configs = reg.configs ++ [RegEntry.msg t p] := rfl

@[simp] theorem updates_update (reg : HassRegistration) (t : String) (p : Payload) :
    (reg.update t p).updates = reg.updates ++ [RegEntry.msg t p] := rfl

@[simp] theorem configs_update (reg : HassRegistration) (t : String) (p : Payload) :
    (reg.update t p).configs = reg.configs := rfl

/-! ## Claim theorems -/

/-- C1, counterexample: on the very first reconciliation pass over the
2-shade, 1-scene inventory, the applied delete phase is not empty — the
code applies the delete batch precisely on the first run, so the claimed
"zero delete publishes" is false at this input. -/
theorem c1_zero_deletes_counterexample :
    countMsgs (apply_updates true regFix).1.deletes ≠ 0 := by decide

/-- C1 (amended): on a first-run pass over the 2-shade, 1-scene inventory
the delete batch IS applied (19 delete publishes here), at least 3 config
publishes are made, and the update phase begins with a delay of
`configs.len() * 30` milliseconds (here 22 configs, 660 ms). -/
theorem c1_first_run_scenario :
    countMsgs (apply_updates true regFix).1.deletes = 19 ∧
    3 ≤ countMsgs (apply_updates true regFix).1.configs ∧
    (apply_updates true regFix).1.updates.head? =
      some (RegEntry.delay (regFix.configs.length * 30)) ∧
    regFix.configs.length * 30 = 660 := by
  refine ⟨by decide, by decide, by decide, by decide⟩

/-- C3, counterexample: the percent→raw→percent roundtrip is not the
identity on [0,100]: at p = 1 it yields 0. -/
theorem c3_roundtrip_counterexample :
    ShadePosition.pos_to_percent (ShadePosition.percent_to_pos 1) = 0 ∧
    ShadePosition.pos_to_percent (ShadePosition.percent_to_pos 1) ≠ 1 := by
  decide

/-- C3 (amended): for every percentage p in [0,100] the roundtrip
`pos_to_percent (percent_to_pos p)` is within one of p (it is p or p-1,
by integer-division rounding), and `percent_to_pos` is monotonic
non-decreasing on [0,100]. -/
theorem c3_roundtrip_amended : ∀ p : Nat, p ≤ 100 →
    (ShadePosition.pos_to_percent (ShadePosition.percent_to_pos p) ≤ p ∧
      p ≤ ShadePosition.pos_to_percent (ShadePosition.percent_to_pos p) + 1) ∧
    (∀ q : Nat, q ≤ 100 → p ≤ q →
      ShadePosition.percent_to_pos p ≤ ShadePosition.percent_to_pos q) := by
  decide

/-- Witness for C3 at p = 50, q = 80. -/
theorem c3_roundtrip_amended_witness :
    (ShadePosition.pos_to_percent (ShadePosition.percent_to_pos 50) ≤ 50 ∧
      50 ≤ ShadePosition.pos_to_percent (ShadePosition.percent_to_pos 50) + 1) ∧
    ShadePosition.percent_to_pos 50 ≤ ShadePosition.percent_to_pos 80 :=
  ⟨(c3_roundtrip_amended 50 (by decide)).1,
   (c3_roundtrip_amended 50 (by decide)).2 80 (by decide) (by decide)⟩

/-- C5: reconciliation is idempotent over a fixed inventory: a second pass
builds identical config payloads (registration is a pure function of the
inventory and the responding flag), the first pass clears `first_run`, and
with `first_run` no longer set the second pass's applied delete phase is
empty while its config phase is unchanged from the first pass. -/
theorem c5_idempotent_reconciliation :
    ∀ (inv : Inventory) (responding : Bool) ( discovery_prefix serial : String),
    register_with_hass inv responding discovery_prefix serial =
      register_with_hass inv responding discovery_prefix serial ∧
    (apply_updates true (register_with_hass inv responding discovery_prefix serial)).2
      = false ∧
    (apply_updates false (register_with_hass inv responding discovery_prefix serial)).1.deletes
      = [] ∧
    (apply_updates false (register_with_hass inv responding discovery_prefix serial)).1.configs
      = (apply_updates true (register_with_hass inv responding discovery_prefix serial)).1.configs := by
  intro inv responding discovery_prefix serial
  refine ⟨rfl, ?_, ?_, ?_⟩ <;> simp [apply_updates]

/-- C9: a shade whose `positions` field is absent is skipped entirely by
`register_shades`: it contributes no delete, config, availability or state
operation at all (for itself or any of its sub-entities). -/
theorem c9_no_position_skips_shade :
    ∀ (serial discovery_prefix : String) (rooms : List RoomData)
      (shade : ShadeData) (rest : List ShadeData) (reg : HassRegistration),
    shade.positions = none →
    register_shades serial discovery_prefix (shade :: rest) rooms reg =
      register_shades serial discovery_prefix rest rooms reg := by
  intro serial discovery_prefix rooms shade rest reg h
  simp [register_shades, register_one_shade, h]

/-- Witness for C9: the position-less fixture shade registers nothing. -/
theorem c9_no_position_skips_shade_witness :
    register_shades "7001" "homeassistant" [shadeNoPos] [] HassRegistration.new =
      HassRegistration.new := by
  have h := c9_no_position_skips_shade "7001" "homeassistant" [] shadeNoPos []
    HassRegistration.new (by decide)
  simpa [register_shades] using h

/-- C2, counterexample: the fixture top-down-bottom-up shade has a
secondary rail (by capability) with unknown position; the reconciliation
pass publishes availability "online" for the `7_middle` cover entity and
publishes neither a state nor a position for it, so an entity with unknown
current value is announced online without a definite state. -/
theorem c2_online_without_state_counterexample :
    RegEntry.msg "pv2mqtt/shade/7001/7_middle/availability" (.str "online")
      ∈ regMid.updates ∧
    (∀ e ∈ regMid.updates, e.topic? ≠ some "pv2mqtt/shade/7001/7_middle/state") ∧
    (∀ e ∈ regMid.updates, e.topic? ≠ some "pv2mqtt/shade/7001/7_middle/position") := by
  decide

/-- C2 (amended): the online-only-with-a-definite-state rule holds for the
battery and signal sensors (unknown value publishes availability offline
and no state), but not for covers: a cover entry with unknown position
still publishes availability online and no state or position. -/
theorem c2_availability_amended :
    (∀ (serial discovery_prefix : String) (device : Device) (device_id : String)
       (shade : ShadeData) (reg : HassRegistration),
      shade.battery_percent = none →
      (battery_block serial discovery_prefix device device_id shade reg).updates
        = reg.updates ++
          [RegEntry.msg (battery_availability_topic serial shade) (.str "offline")]) ∧
    (∀ (serial discovery_prefix : String) (device : Device) (device_id : String)
       (shade : ShadeData) (reg : HassRegistration),
      shade.signal_strength_percent = none →
      (signal_block serial discovery_prefix device device_id shade reg).updates
        = reg.updates ++
          [RegEntry.msg (MODEL ++ "/sensor/" ++ serial ++ "/" ++
            toString shade.id ++ "/signal/availability") (.str "offline")]) ∧
    (∀ (serial discovery_prefix : String) (device : Device)
       (shade_id : String) (shade_name : Option String) (reg : HassRegistration),
      (cover_entry serial discovery_prefix device (shade_id, shade_name, none) reg).updates
        = reg.updates ++
          [RegEntry.msg (MODEL ++ "/shade/" ++ serial ++ "/" ++ shade_id ++
            "/availability") (.str "online")]) := by
  refine ⟨?_, ?_, ?_⟩
  · intro serial discovery_prefix device device_id shade reg h
    simp [battery_block, h]
  · intro serial discovery_prefix device device_id shade reg h
    simp [signal_block, h]
  · intro serial discovery_prefix device shade_id shade_name reg
    simp [cover_entry]

/-- Witness for C2 at the battery-unavailable fixture shade and a
position-less cover entry. -/
theorem c2_availability_amended_witness :
    (battery_block "7001" "homeassistant" devW "7001-9" shadeNoBatt
        HassRegistration.new).updates
      = HassRegistration.new.updates ++
        [RegEntry.msg (battery_availability_topic "7001" shadeNoBatt) (.str "offline")] ∧
    (cover_entry "7001" "homeassistant" devW ("9", none, none)
        HassRegistration.new).updates
      = HassRegistration.new.updates ++
        [RegEntry.msg (MODEL ++ "/shade/" ++ "7001" ++ "/" ++ "9" ++
          "/availability") (.str "online")] :=
  ⟨c2_availability_amended.1 "7001" "homeassistant" devW "7001-9" shadeNoBatt
      HassRegistration.new (by decide),
   c2_availability_amended.2.2 "7001" "homeassistant" devW "9" none
      HassRegistration.new⟩

/-- C10: every inbound command handler (scene activate, set position,
shade command) whose `serial` path parameter differs from the tracked hub
serial performs no hub call and no publish, and returns `Ok(())`. -/
theorem c10_serial_mismatch_is_noop :
    ∀ (hub : HubModel) (state_serial serial : String) (scene_id shade_id : Int)
      (is_secondary : Bool) (position : Nat) (command : String),
    serial ≠ state_serial →
    mqtt_scene_activate hub state_serial serial scene_id = (.ok (), []) ∧
    mqtt_shade_set_position hub state_serial serial shade_id is_secondary position
      = (.ok (), []) ∧
    mqtt_shade_command hub state_serial serial shade_id command = (.ok (), []) := by
  intro hub state_serial serial scene_id shade_id is_secondary position command h
  refine ⟨?_, ?_, ?_⟩ <;>
    simp [mqtt_scene_activate, mqtt_shade_set_position, mqtt_shade_command, h]

/-- Witness for C10 at a mismatched serial. -/
theorem c10_serial_mismatch_is_noop_witness :
    mqtt_scene_activate hubW "7001" "9999" 10 = (.ok (), []) ∧
    mqtt_shade_set_position hubW "7001" "9999" 3 false 50 = (.ok (), []) ∧
    mqtt_shade_command hubW "7001" "9999" 3 "OPEN" = (.ok (), []) :=
  c10_serial_mismatch_is_noop hubW "7001" "9999" 10 3 false 50 "OPEN" (by decide)

/-- C7 (code bug): a discovery event for the tracked hub with no user data
marks the hub unresponsive and performs exactly one publish of
"UNRESPONSIVE" — but that publish goes to
`pv2mqtt/shade/{serial}-responding/state`, while the "Status" diagnostic
entity was registered with state topic
`pv2mqtt/sensor/{serial}-responding/state`; the two topics differ, so the
advisory never reaches the topic the downstream consumer reads (no
registration topic is deleted or modified either way). -/
theorem c7_unresponsive_topic_mismatch :
    handle_discovery "7001" true udFix none
      = ((false, udFix),
         [Action.publish "pv2mqtt/shade/7001-responding/state" "UNRESPONSIVE"]) ∧
    ("homeassistant/sensor/7001-responding/config",
      "pv2mqtt/sensor/7001-responding/state")
      ∈ sensorStateTopics
          (register_hub udFix true "homeassistant" HassRegistration.new).configs ∧
    ("pv2mqtt/shade/7001-responding/state" : String)
      ≠ "pv2mqtt/sensor/7001-responding/state" := by
  decide

/-- `Router::at` on a topic no registered route matches returns an error. -/
theorem routerAt_unmatched (topic : List String) :
    ∀ (routes : List (List RouteSeg × Handler)),
    (∀ r ∈ routes, matchRoute r.1 topic = none) →
    ∃ e, routerAt routes topic = Except.error e := by
  intro routes
  induction routes with
  | nil => exact fun _ => ⟨_, rfl⟩
  | cons r rest ih =>
    intro h
    have hr := h r (List.mem_cons_self r rest)
    obtain ⟨e, he⟩ := ih fun r' hr' => h r' (List.mem_cons_of_mem _ hr')
    exact ⟨e, by simp [routerAt, hr, he]⟩

/-- C4 (amended): for every inbound message whose topic matches no
registered route, `MqttRouter::dispatch` returns an error (the `?` on the
router lookup propagates the failed match to the caller, which logs it and
continues; the message is dropped, but as an error result, not an `Ok`). -/
theorem c4_unmatched_dispatch_errors :
    ∀ (router : MqttRouter) (message : Message),
    (∀ r ∈ router.routes, matchRoute r.1 (splitTopic message.topic) = none) →
    isError (router.dispatch message) = true := by
  intro router message h
  obtain ⟨e, he⟩ := routerAt_unmatched (splitTopic message.topic) router.routes h
  simp [MqttRouter.dispatch, he, isError]

/-- C4, counterexample: with the four routes the bridge registers, a
message on the unmatched topic `pv2mqtt/unknown` makes `dispatch` return
an error result, so the claim that a failed match is not surfaced as an
error to the caller is false. -/
theorem c4_nonerror_counterexample :
    isError (routerFix.dispatch { topic := "pv2mqtt/unknown", payload := "" })
      = true := by
  decide

/-- Witness for C4 on a second unmatched topic. -/
theorem c4_unmatched_dispatch_errors_witness :
    isError (routerFix.dispatch { topic := "other/topic", payload := "" })
      = true := by
  refine c4_unmatched_dispatch_errors routerFix { topic := "other/topic", payload := "" } ?_
  intro r hr
  simp only [routerFix, List.mem_cons, List.not_mem_nil, or_false] at hr
  rcases hr with rfl | rfl | rfl | rfl <;> decide

/-- Record types announcing completion never sort at-or-before start
announcements. -/
theorem le_final_start_false :
    ∀ x y : HomeAutomationRecordType,
    HomeAutomationRecordType.le x y = true → isFinalRecord x = true →
    isStartRecord y = true → False := by
  decide

/-- C6: sorting a postback batch by record type is a stable sort under a
total order (the derived order on `HomeAutomationRecordType`): the output
is a permutation, sorted, the comparator is total, transitive and
antisymmetric on record types, pairs already in key order keep their
relative order (stability), and in the sorted output no completed-motion
event (`HasOpened`/`HasFullyOpened`/`HasFullyClosed`/`HasClosed`/`Stops`)
precedes a start event (`StartsOpening`/`StartsClosing`/`BeginsMoving`). -/
theorem c6_event_sort :
    ∀ (l : List HomeAutomationPostBackData),
    List.Perm (sortRecords l) l ∧
    (sortRecords l).Pairwise
      (fun a b => a.record_type.le b.record_type = true) ∧
    (∀ a b : HomeAutomationRecordType, a.le b = true ∨ b.le a = true) ∧
    (∀ a b c : HomeAutomationRecordType,
      a.le b = true → b.le c = true → a.le c = true) ∧
    (∀ a b : HomeAutomationRecordType, a.le b = true → b.le a = true → a = b) ∧
    (∀ a b : HomeAutomationPostBackData,
      a.record_type.le b.record_type = true →
      List.Sublist [a, b] l → List.Sublist [a, b] (sortRecords l)) ∧
    (sortRecords l).Pairwise (fun a b =>
      ¬(isFinalRecord a.record_type = true ∧ isStartRecord b.record_type = true)) := by
  intro l
  have htrans : ∀ a b c : HomeAutomationPostBackData,
      a.record_type.le b.record_type = true →
      b.record_type.le c.record_type = true →
      a.record_type.le c.record_type = true := by
    intro a b c
    simp only [HomeAutomationRecordType.le, Nat.ble_eq]
    omega
  have htotal : ∀ a b : HomeAutomationPostBackData,
      (a.record_type.le b.record_type || b.record_type.le a.record_type) = true := by
    intro a b
    simp only [HomeAutomationRecordType.le, Nat.ble_eq, Bool.or_eq_true]
    omega
  have hsorted := List.sorted_mergeSort htrans htotal l
  refine ⟨List.mergeSort_perm l _, hsorted, by decide, by decide, by decide,
    ?_, ?_⟩
  · intro a b hab hsub
    exact List.pair_sublist_mergeSort htrans htotal hab hsub
  · refine hsorted.imp ?_
    intro a b h hc
    exact le_final_start_false _ _ h hc.1 hc.2

/-- Witness for C6 on a two-element out-of-order batch. -/
theorem c6_event_sort_witness :
    List.Perm (sortRecords [recOf .stops, recOf .startsOpening])
      [recOf .stops, recOf .startsOpening] ∧
    List.Sublist [recOf .startsOpening, recOf .stops]
      (sortRecords [recOf .startsOpening, recOf .stops]) :=
  ⟨(c6_event_sort [recOf .stops, recOf .startsOpening]).1,
   (c6_event_sort [recOf .startsOpening, recOf .stops]).2.2.2.2.2.1
     (recOf .startsOpening) (recOf .stops) (by decide) (List.Sublist.refl _)⟩

/-- A colon at the head of the input emits one `+` and enters a
parameter. -/
theorem rttGo_colon (l : List Char) (b : Bool) :
    rttGo (':' :: l) b = '+' :: rttGo l true := rfl

/-- A slash always passes through and leaves any parameter. -/
theorem rttGo_slash (l : List Char) (b : Bool) :
    rttGo ('/' :: l) b = '/' :: rttGo l false := rfl

/-- A colon-free list cannot have a colon head. -/
theorem head_ne_colon : ∀ {s : List Char}, ':' ∉ s → s.head? ≠ some ':'
  | [], _ => by simp
  | c :: cs, h => by
    simp only [List.head?, ne_eq, Option.some.injEq]
    intro hc
    exact h (hc ▸ List.mem_cons_self c cs)

/-- A literal segment contains neither marker character. -/
theorem litSeg_pointwise {s : List Char} (h : litSeg s) :
    ∀ c ∈ s, c ≠ ':' ∧ c ≠ '/' :=
  fun _ hc => ⟨fun e => h.1 (e ▸ hc), fun e => h.2 (e ▸ hc)⟩

/-- Outside a parameter, marker-free characters pass through `rttGo`
unchanged. -/
theorem rttGo_lit (cs : List Char) (rest : List Char)
    (h : ∀ c ∈ cs, c ≠ ':' ∧ c ≠ '/') :
    rttGo (cs ++ rest) false = cs ++ rttGo rest false := by
  induction cs with
  | nil => rfl
  | cons c cs ih =>
    have hc := h c (List.mem_cons_self c cs)
    have hrest := fun c' hc' => h c' (List.mem_cons_of_mem c hc')
    simp [rttGo, hc.1, hc.2, ih hrest]

/-- Inside a parameter, marker-free characters are skipped by `rttGo`. -/
theorem rttGo_skip (cs : List Char) (rest : List Char)
    (h : ∀ c ∈ cs, c ≠ ':' ∧ c ≠ '/') :
    rttGo (cs ++ rest) true = rttGo rest true := by
  induction cs with
  | nil => rfl
  | cons c cs ih =>
    have hc := h c (List.mem_cons_self c cs)
    have hrest := fun c' hc' => h c' (List.mem_cons_of_mem c hc')
    simp [rttGo, hc.1, hc.2, ih hrest]

/-- The segment-wise behavior of the `route_to_topic` character loop:
on a `/`-joined list of well-formed segments it keeps every segment in
order, keeps literal segments verbatim, and turns each `:name` segment
into the single token `+`. -/
theorem rttGo_joinSegs :
    ∀ segs : List (List Char), (∀ s ∈ segs, segOk s) →
    rttGo (joinSegs segs) false = joinSegs (segs.map segTopic) := by
  intro segs
  induction segs with
  | nil => intro _; rfl
  | cons s rest ih =>
    intro h
    have hs := h s (List.mem_cons_self s rest)
    have hrest := fun s' h' => h s' (List.mem_cons_of_mem s h')
    cases rest with
    | nil =>
      rcases hs with hlit | ⟨hh, h1, h2⟩
      · have hne := head_ne_colon hlit.1
        have := rttGo_lit s [] (litSeg_pointwise hlit)
        simp only [List.append_nil] at this
        simp [joinSegs, segTopic, hne, this, rttGo]
      · rcases s with _ | ⟨c, t⟩
        · simp at hh
        · have hc : c = ':' := by simpa [List.head?] using hh
          subst hc
          have ht : ∀ c ∈ t, c ≠ ':' ∧ c ≠ '/' :=
            fun c' hc' => ⟨fun e => h1 (e ▸ hc'), fun e => h2 (e ▸ hc')⟩
          have := rttGo_skip t [] ht
          simp only [List.append_nil] at this
          simp [joinSegs, segTopic, rttGo_colon, this, rttGo]
    | cons s2 rest2 =>
      have hjoin : joinSegs (s :: s2 :: rest2) = s ++ '/' :: joinSegs (s2 :: rest2) :=
        rfl
      rcases hs with hlit | ⟨hh, h1, h2⟩
      · have hne := head_ne_colon hlit.1
        rw [hjoin, rttGo_lit s ('/' :: joinSegs (s2 :: rest2)) (litSeg_pointwise hlit)]
        simp [rttGo, joinSegs, segTopic, hne, ih hrest]
      · rcases s with _ | ⟨c, t⟩
        · simp at hh
        · have hc : c = ':' := by simpa [List.head?] using hh
          subst hc
          have ht : ∀ c ∈ t, c ≠ ':' ∧ c ≠ '/' :=
            fun c' hc' => ⟨fun e => h1 (e ▸ hc'), fun e => h2 (e ▸ hc')⟩
          rw [hjoin, List.cons_append, rttGo_colon,
            rttGo_skip t ('/' :: joinSegs (s2 :: rest2)) ht, rttGo_slash]
          simp [joinSegs, segTopic, ih hrest]

/-- C8: `route_to_topic` on a route made of well-formed segments preserves
the number and order of segments, leaves every literal segment unchanged,
and replaces each parameter segment (leading `:`) with exactly one `+`
wildcard token — two adjacent parameter segments yield two separate `+`
tokens (they stay separated by the `/` the joiner keeps). -/
theorem c8_route_to_topic :
    ∀ segs : List (List Char), (∀ s ∈ segs, segOk s) →
    route_to_topic (String.mk (joinSegs segs))
      = String.mk (joinSegs (segs.map segTopic)) := by
  intro segs h
  unfold route_to_topic
  exact congrArg String.mk (rttGo_joinSegs segs h)

/-- Witness for C8 on `pv2mqtt/:a/:b/cmd` (two adjacent captures). -/
theorem c8_route_to_topic_witness :
    route_to_topic (String.mk (joinSegs segsW))
      = String.mk (joinSegs (segsW.map segTopic)) ∧
    String.mk (joinSegs (segsW.map segTopic)) = "pv2mqtt/+/+/cmd" :=
  ⟨c8_route_to_topic segsW (by decide), by decide⟩

end Pview
